import Mathlib

/-!
Shallow embedding of `src/www/simulator.js` (pyledstrip simulator front end).

The source is a small browser script with two algorithmic components:

* `GifRecorder` — captures rendered frames (timestamp + cloned canvas) while
  active, and on `generateGif` derives per-frame delays from consecutive
  timestamps and hands (canvas, delay) pairs to an external GIF encoder whose
  `finished` / `abort` events mutate the recorder state.
* `StripRenderer` — `resizeCanvas` fits the bounding box of the light layout
  into a `maxSize`-bounded canvas (uniform scale, offsets), and `render`
  composites one tinted sprite per light at a mapped, y-flipped position.

DOM drawing is modelled by the data it is driven by: a render produces the
list of sprite draw calls (tint colour and destination position); recorder
state keeps the fields of the class (`frames`, `active`) together with the
UI fields the methods write (`btnRecord.disabled`, `btnRecord.innerText`,
`progressText.innerText`).  JS numbers are modelled as `ℚ` (geometry) and
`ℤ` / `ℕ` (pixel values, timestamps); JS division by zero produces a
non-finite value (`Infinity`/`NaN`), modelled as `none` of an `Option`.
-/

/-- `const maxSize = 600;` (simulator.js line 1). -/
def maxSize : ℤ := 600

/-- `const offPixelBrightness = 30;` (line 2). -/
def offPixelBrightness : ℤ := 30

/-- `const gifWorkers = 4;` (line 3). -/
def gifWorkers : ℕ := 4

/-- `const gifQuality = 0;` (line 4). -/
def gifQuality : ℕ := 0

/-! ## GifRecorder -/

/-- One captured frame: `{timestamp, canvas}` pushed by `addFrame`.  The
cloned canvas is identified by an opaque id. -/
structure Frame where
  timestamp : ℤ
  canvas : ℕ
deriving DecidableEq, Repr

/-- The mutable state of a `GifRecorder` instance: its two fields
(`frames`, `active`) plus the DOM state its methods write. -/
structure RecorderState where
  frames : List Frame
  active : Bool
  btnDisabled : Bool
  btnText : String
  progressText : String
deriving DecidableEq, Repr

/-- The encoding job handed to the external `GIF` backend by `generateGif`:
the `(canvas, delay)` pairs passed to `gif.addFrame`, plus the pool
configuration. -/
structure EncodeJob where
  frames : List (ℕ × ℤ)
  workers : ℕ
  quality : ℕ
deriving DecidableEq, Repr

namespace GifRecorder

/-- `addFrame(canvas)` (lines 25-42): no-op unless active; otherwise push
`{timestamp, canvas clone}`. -/
def addFrame (st : RecorderState) (timestamp : ℤ) (canvas : ℕ) : RecorderState :=
  if st.active = false then st
  else { st with frames := st.frames ++ [⟨timestamp, canvas⟩] }

/-- `start()` (lines 44-48). -/
def start (st : RecorderState) : RecorderState :=
  { st with active := true, progressText := "Recording", btnText := "Stop" }

/-- `clear()` (lines 57-59). -/
def clear (st : RecorderState) : RecorderState :=
  { st with frames := [] }

/-- The delay loop of `generateGif` (lines 93-99): `delay` starts at 1000;
for each frame `i`, if `i + 1 < length` then `delay := t[i+1] - t[i]`; the
current `delay` is attached to frame `i`.  `delaysGo d ts` returns the list
of attached delays for timestamps `ts` with current delay `d`. -/
def delaysGo (d : ℤ) : List ℤ → List ℤ
  | [] => []
  | [_] => [d]
  | t :: t' :: rest => (t' - t) :: delaysGo (t' - t) (t' :: rest)

/-- The delays attached to the captured frames, starting from the initial
`let delay = 1000` (line 93). -/
def delays (ts : List ℤ) : List ℤ :=
  delaysGo 1000 ts

/-- `generateGif()` (lines 61-102): with no frames, report "No frames",
re-enable the record button and start no encoding; otherwise hand every
`(canvas, delay)` pair to a new `GIF` backend (state is only changed later,
by the backend's events). -/
def generateGif (st : RecorderState) : RecorderState × Option EncodeJob :=
  if st.frames.length = 0 then
    ({ st with progressText := "No frames", btnDisabled := false }, none)
  else
    (st, some { frames := List.zip (st.frames.map Frame.canvas)
                  (delays (st.frames.map Frame.timestamp)),
                workers := gifWorkers, quality := gifQuality })

/-- `stop()` (lines 50-55): disable the button, deactivate, relabel, then
call `generateGif`. -/
def stop (st : RecorderState) : RecorderState × Option EncodeJob :=
  generateGif { st with btnDisabled := true, active := false, btnText := "Record" }

/-- The `gif.on('abort', ...)` handler (lines 79-82): set the progress text
and re-enable the record button.  (It does not call `clear()`.) -/
def onAbort (st : RecorderState) : RecorderState :=
  { st with progressText := "Aborted", btnDisabled := false }

/-- The `gif.on('finished', ...)` handler (lines 83-91): set the progress
text, attach the result image, `clear()` the frames, re-enable the record
button. -/
def onFinished (st : RecorderState) : RecorderState :=
  { clear { st with progressText := "Finished" } with btnDisabled := false }

end GifRecorder

/-! ## StripRenderer -/

/-- A layout point `[x, y]`. -/
abbrev Point := ℚ × ℚ

/-- The viewport state written by `resizeCanvas`: `this.scaling`,
`this.canvas.width`, `this.canvas.height`, `this.xOffset`, `this.yOffset`. -/
structure Viewport where
  scaling : ℚ
  canvasWidth : ℤ
  canvasHeight : ℤ
  xOffset : ℚ
  yOffset : ℚ
deriving DecidableEq, Repr

/-- Outcome of `resizeCanvas`: the early-return guard leaves the state
unchanged; a zero divisor in the scale computation produces a non-finite
scale (`Infinity`/`NaN` in JS); otherwise a finite viewport is written. -/
inductive ResizeResult
  | unchanged
  | divByZero
  | viewport (v : Viewport)
deriving DecidableEq, Repr

/-- JS division, on finite inputs: `a / b` for `b ≠ 0`; division by zero
yields a non-finite value (`Infinity` or `NaN`), modelled as `none`. -/
def jsDiv (a b : ℚ) : Option ℚ :=
  if b = 0 then none else some (a / b)

/-- The bounding-box loop of `resizeCanvas` (lines 139-145), folding the
four `if` updates over the remaining points.  The accumulator is
`(xMin, xMax, yMin, yMax)`. -/
def bboxGo : ℚ × ℚ × ℚ × ℚ → List Point → ℚ × ℚ × ℚ × ℚ
  | acc, [] => acc
  | (xMin, xMax, yMin, yMax), v :: rest =>
      bboxGo
        ((if v.1 < xMin then v.1 else xMin),
         (if v.1 > xMax then v.1 else xMax),
         (if v.2 < yMin then v.2 else yMin),
         (if v.2 > yMax then v.2 else yMax)) rest

/-- Bounding box of `p0 :: rest`, initialised from the first point
(lines 135-138). -/
def bbox (p0 : Point) (rest : List Point) : ℚ × ℚ × ℚ × ℚ :=
  bboxGo (p0.1, p0.1, p0.2, p0.2) rest

/-- `resizeCanvas()` (lines 130-162).  `image_w`, `image_h` are
`this.image.width/height`; `tintReady` models `this.tintCtx` being set;
`map` is `this.map` (`none` = not yet received). -/
def resizeCanvas (image_w image_h : ℤ) (tintReady : Bool) (map : Option (List Point)) :
    ResizeResult :=
  match map with
  | none => .unchanged
  | some m =>
    match m with
    | [] => .unchanged
    | p0 :: rest =>
      if tintReady = false then .unchanged else
      let b := bbox p0 rest
      let maxWidth : ℤ := maxSize - image_w
      let maxHeight : ℤ := maxSize - image_h
      let xDiff := b.2.1 - b.1
      let yDiff := b.2.2.2 - b.2.2.1
      if xDiff > yDiff then
        match jsDiv (maxWidth : ℚ) xDiff with
        | none => .divByZero
        | some s =>
            .viewport ⟨s, maxSize, round (yDiff * s) + image_h, -b.1, -b.2.2.1⟩
      else
        match jsDiv (maxHeight : ℚ) yDiff with
        | none => .divByZero
        | some s =>
            .viewport ⟨s, round (xDiff * s) + image_w, maxSize, -b.1, -b.2.2.1⟩

/-- One RGB triple of the streamed frame, channels 0-255. -/
abbrev Pix := ℕ × ℕ × ℕ

/-- The per-channel remap of `render` (lines 181-185):
`offPixelBrightness + Math.round((255.0 - offPixelBrightness) * c / 255.0)`. -/
def remapChannel (c : ℕ) : ℤ :=
  offPixelBrightness + round ((255 - (offPixelBrightness : ℚ)) * (c : ℚ) / 255)

/-- The remapped pixel `[r, g, b]` (lines 181-185). -/
def remapPixel (p : Pix) : ℤ × ℤ × ℤ :=
  (remapChannel p.1, remapChannel p.2.1, remapChannel p.2.2)

/-- One sprite draw: the tint colour filled through `source-in` and the
destination position passed to `this.ctx.drawImage` (lines 187-200). -/
structure DrawCall where
  tint : ℤ × ℤ × ℤ
  x : ℚ
  y : ℚ
deriving DecidableEq, Repr

/-- Outcome of `render`: the guard's early return (`noop`); a JS
`TypeError` from reading `this.map[i][0]` past the end of the layout
(`indexError`, carrying the draws issued before the throw); or the full
list of sprite draws (`drawn`). -/
inductive RenderResult
  | noop
  | indexError (callsBefore : List DrawCall)
  | drawn (calls : List DrawCall)
deriving DecidableEq, Repr

/-- The draw call for layout point `pt` and colour `px` (lines 178-200):
tint is the remapped pixel, destination is
`((x + xOffset) * scaling, canvasHeight - (y + yOffset) * scaling - imageHeight)`. -/
def drawCallOf (scaling xOffset yOffset : ℚ) (canvasHeight image_h : ℤ)
    (pt : Point) (px : Pix) : DrawCall :=
  { tint := remapPixel px,
    x := (pt.1 + xOffset) * scaling,
    y := (canvasHeight : ℚ) - (pt.2 + yOffset) * scaling - (image_h : ℚ) }

/-- The fields of `StripRenderer` that `render` reads. -/
structure RendererState where
  map : Option (List Point)
  pixels : Option (List Pix)
  scaling : ℚ
  xOffset : ℚ
  yOffset : ℚ
  canvasHeight : ℤ
  image_h : ℤ
deriving Repr

/-- `render()` (lines 164-206).  Early return when `this.map` or
`this.pixels` is unset.  The loop bound is
`Math.min(this.pixels.length, this.pixels.length)` (line 175, as written in
the source); iterations with `i` beyond the layout throw on
`this.map[i][0]` after the in-range draws were issued. -/
def render (st : RendererState) : RenderResult :=
  match st.map, st.pixels with
  | some mapL, some pixels =>
      let l := min pixels.length pixels.length
      if l ≤ mapL.length then
        .drawn (List.zipWith
          (drawCallOf st.scaling st.xOffset st.yOffset st.canvasHeight st.image_h)
          (mapL.take l) (pixels.take l))
      else
        .indexError (List.zipWith
          (drawCallOf st.scaling st.xOffset st.yOffset st.canvasHeight st.image_h)
          mapL (pixels.take mapL.length))
  | _, _ => .noop

/-- The claim's remap formula read literally (spec §4.2): `floor +
(255 - floor) * c / 255`, exact rational arithmetic, no rounding.  Declared
for comparison with `remapChannel`, which is what the source computes. -/
def specRemapChannel (c : ℕ) : ℚ :=
  (offPixelBrightness : ℚ) + (255 - (offPixelBrightness : ℚ)) * (c : ℚ) / 255

/-! ## Helper lemmas -/

theorem delaysGo_length (d : ℤ) (ts : List ℤ) :
    (GifRecorder.delaysGo d ts).length = ts.length := by
  induction ts generalizing d with
  | nil => rfl
  | cons t rest ih =>
    cases rest with
    | nil => rfl
    | cons t' rest' => simp [GifRecorder.delaysGo, ih (t' - t)]

theorem delaysGo_get (d : ℤ) (ts : List ℤ) (i : ℕ) (t t' : ℤ)
    (h1 : ts.get? i = some t) (h2 : ts.get? (i + 1) = some t') :
    (GifRecorder.delaysGo d ts).get? i = some (t' - t) := by
  induction ts generalizing d i with
  | nil => simp at h1
  | cons t0 rest ih =>
    cases rest with
    | nil => cases i <;> simp at h2
    | cons t1 rest' =>
      cases i with
      | zero =>
        simp at h1 h2
        subst h1; subst h2
        simp [GifRecorder.delaysGo]
      | succ j =>
        simp only [List.get?] at h1 h2
        simpa [GifRecorder.delaysGo] using ih (t1 - t0) j h1 h2

theorem delaysGo_last_pair (d t t' : ℤ) (rest : List ℤ) :
    ∃ ds x, GifRecorder.delaysGo d (t :: t' :: rest) = ds ++ [x, x] := by
  induction rest generalizing d t t' with
  | nil => exact ⟨[], t' - t, by simp [GifRecorder.delaysGo]⟩
  | cons r rs ih =>
    obtain ⟨ds, x, h⟩ := ih (t' - t) t' r
    refine ⟨(t' - t) :: ds, x, ?_⟩
    calc GifRecorder.delaysGo d (t :: t' :: r :: rs)
        = (t' - t) :: GifRecorder.delaysGo (t' - t) (t' :: r :: rs) := rfl
      _ = (t' - t) :: (ds ++ [x, x]) := by rw [h]
      _ = ((t' - t) :: ds) ++ [x, x] := rfl

/-! ## Claims about the GifRecorder -/

/-- C4: the delay attached to frame `i` with `i + 1 < n` is
`t[i+1] - t[i]`; for `n ≥ 2` the final frame reuses the delay of the
penultimate frame (the delay list ends in a repeated value); a single frame
gets the default delay 1000; timestamps `[0, 100, 250, 400]` give the
differenced delays `[100, 150, 150]` for frames 0-2, the final frame
reusing 150. -/
theorem delays_spec :
    (∀ (ts : List ℤ) (i : ℕ) (t t' : ℤ), ts.get? i = some t →
      ts.get? (i + 1) = some t' → (GifRecorder.delays ts).get? i = some (t' - t))
    ∧ (∀ (t t' : ℤ) (rest : List ℤ),
      ∃ ds x, GifRecorder.delays (t :: t' :: rest) = ds ++ [x, x])
    ∧ (∀ t : ℤ, GifRecorder.delays [t] = [1000])
    ∧ GifRecorder.delays [0, 100, 250, 400] = [100, 150, 150, 150]
    ∧ (GifRecorder.delays [0, 100, 250, 400]).take 3 = [100, 150, 150] := by
  refine ⟨fun ts i t t' h1 h2 => delaysGo_get 1000 ts i t t' h1 h2,
    fun t t' rest => delaysGo_last_pair 1000 t t' rest,
    fun t => rfl, rfl, rfl⟩

/-- C4 witness: the delay rule evaluated on the timestamps
`[0, 100, 250, 400]` at frame 1. -/
theorem delays_spec_witness :
    ([0, 100, 250, 400] : List ℤ).get? 1 = some 100 ∧
    ([0, 100, 250, 400] : List ℤ).get? 2 = some 250 ∧
    (GifRecorder.delays [0, 100, 250, 400]).get? 1 = some 150 :=
  ⟨rfl, rfl, by simpa using delays_spec.1 [0, 100, 250, 400] 1 100 250 rfl rfl⟩

/-- C2 counterexample: the `abort` handler does not clear the captured
frames — starting from a state holding one frame, the frame survives. -/
theorem abort_leaves_frames :
    (GifRecorder.onAbort ⟨[⟨0, 0⟩], false, true, "Record", "50%"⟩).frames ≠ [] := by
  simp [GifRecorder.onAbort]

/-- C2 (amended): after `finished` the frames are cleared and the record
button re-enabled; after `abort` the record button is re-enabled but the
frames are left exactly as they were (no clearing). -/
theorem finished_clears_aborted_does_not :
    (∀ st : RecorderState, (GifRecorder.onFinished st).frames = []
      ∧ (GifRecorder.onFinished st).btnDisabled = false)
    ∧ (∀ st : RecorderState, (GifRecorder.onAbort st).frames = st.frames
      ∧ (GifRecorder.onAbort st).btnDisabled = false) :=
  ⟨fun _ => ⟨rfl, rfl⟩, fun _ => ⟨rfl, rfl⟩⟩

/-- C8 counterexample: `stop()` invoked on an already-inactive recorder
holding one frame is not a no-op — it changes the state (disables the
record button) and triggers an export. -/
theorem stop_disarmed_not_noop :
    ¬((GifRecorder.stop ⟨[⟨0, 0⟩], false, false, "Record", "Finished"⟩).1
        = ⟨[⟨0, 0⟩], false, false, "Record", "Finished"⟩
      ∧ (GifRecorder.stop ⟨[⟨0, 0⟩], false, false, "Record", "Finished"⟩).2 = none) := by
  decide

/-- C8 (amended): `start()` is idempotent and touches no frames; `stop()`
while already stopped is not a no-op — it disables the record button and
re-runs export generation, starting a new export when frames remain and
reporting "No frames" (button re-enabled) when none do. -/
theorem start_idempotent_stop_reruns_export :
    (∀ st : RecorderState, GifRecorder.start (GifRecorder.start st) = GifRecorder.start st)
    ∧ (∀ st : RecorderState, (GifRecorder.start st).frames = st.frames)
    ∧ (∀ st : RecorderState, st.frames ≠ [] →
        (GifRecorder.stop st).1.btnDisabled = true ∧ (GifRecorder.stop st).2.isSome = true)
    ∧ (∀ st : RecorderState, st.frames = [] →
        (GifRecorder.stop st).2 = none
        ∧ (GifRecorder.stop st).1.progressText = "No frames"
        ∧ (GifRecorder.stop st).1.btnDisabled = false
        ∧ (GifRecorder.stop st).1.active = false) := by
  refine ⟨fun st => rfl, fun st => rfl, fun st h => ?_, fun st h => ?_⟩
  · have hlen : st.frames.length ≠ 0 := by simpa using h
    simp [GifRecorder.stop, GifRecorder.generateGif, hlen]
  · simp [GifRecorder.stop, GifRecorder.generateGif, h]

/-- C8 witness: the amended behaviour evaluated on a one-frame inactive
state and on an empty-frames state. -/
theorem start_idempotent_stop_reruns_export_witness :
    ((GifRecorder.stop ⟨[⟨0, 0⟩], false, false, "Record", ""⟩).2.isSome = true)
    ∧ (GifRecorder.stop ⟨[], false, false, "Record", ""⟩).1.progressText = "No frames" :=
  ⟨(start_idempotent_stop_reruns_export.2.2.1 ⟨[⟨0, 0⟩], false, false, "Record", ""⟩
      (by decide)).2,
   (start_idempotent_stop_reruns_export.2.2.2 ⟨[], false, false, "Record", ""⟩ rfl).2.1⟩

/-- C9: `generateGif` with zero captured frames reports "No frames",
re-enables the record button, starts no encoding, and leaves the (empty)
frame list and the rest of the state untouched. -/
theorem generateGif_no_frames (st : RecorderState) (h : st.frames = []) :
    GifRecorder.generateGif st =
      ({ st with progressText := "No frames", btnDisabled := false }, none) := by
  simp [GifRecorder.generateGif, h]

/-- C9 witness: the empty-export behaviour evaluated on a concrete
zero-frame state. -/
theorem generateGif_no_frames_witness :
    GifRecorder.generateGif ⟨[], false, true, "Record", "Recording"⟩ =
      (⟨[], false, false, "Record", "No frames"⟩, none) :=
  generateGif_no_frames ⟨[], false, true, "Record", "Recording"⟩ rfl

/-! ## Claims about the StripRenderer -/

/-- C1: the render loop bound is `Math.min(pixels.length, pixels.length)`,
i.e. the colour-frame length alone — with a 1-point layout and a 2-entry
colour frame the loop does not stop at `min(1, 2) = 1` but reads
`map[1]` past the end of the layout (a JS `TypeError`) after issuing the
single in-range draw at the claimed position
`((x + xOffset) * scaling, canvasHeight - (y + yOffset) * scaling - imageHeight)`. -/
theorem render_overruns_layout :
    render ⟨some [(0, 0)], some [(0, 0, 0), (0, 0, 0)], 1, 0, 0, 600, 20⟩
      = .indexError [⟨(30, 30, 30), 0, 580⟩] := by
  norm_num [render, drawCallOf, remapPixel, remapChannel, offPixelBrightness]

/-- C7: `render` is a no-op when the layout or the colour frame is unset
(`this.map`/`this.pixels` undefined); but an empty layout does not disable
rendering: with an empty layout and a non-empty colour frame the loop bound
is the colour-frame length, so `map[0]` is read out of bounds (a JS
`TypeError`) — only with an empty colour frame does an empty layout draw
nothing. -/
theorem render_absent_noop_empty_layout_overruns :
    (∀ st : RendererState, st.map = none ∨ st.pixels = none → render st = .noop)
    ∧ render ⟨some [], some [], 1, 0, 0, 600, 20⟩ = .drawn []
    ∧ render ⟨some [], some [(0, 0, 0)], 1, 0, 0, 600, 20⟩ = .indexError [] := by
  refine ⟨fun st h => ?_, rfl, rfl⟩
  obtain ⟨m, p, sc, xo, yo, ch, ih⟩ := st
  rcases h with h | h <;> simp only at h <;> subst h
  · rfl
  · cases m <;> rfl

/-- C7 witness: the no-op guard evaluated at a concrete state with an
absent colour frame. -/
theorem render_absent_noop_empty_layout_overruns_witness :
    render ⟨some [(3, 4)], none, 2, 1, 1, 600, 20⟩ = .noop :=
  render_absent_noop_empty_layout_overruns.1 ⟨some [(3, 4)], none, 2, 1, 1, 600, 20⟩
    (Or.inr rfl)

/-- C6 counterexample: the claimed exact remap formula
`floor + (255 - floor) * c / 255` disagrees with the source at channel
value 1: the source computes `30 + Math.round(225 * 1 / 255) = 31`, the
exact formula gives the non-integer `30 + 15/17`. -/
theorem remap_formula_counterexample :
    ((remapChannel 1 : ℤ) : ℚ) ≠ specRemapChannel 1 := by
  have hround : round ((255 - (offPixelBrightness : ℚ)) * ((1 : ℕ) : ℚ) / 255) = 1 := by
    norm_num [offPixelBrightness, round_eq]
  have hr : remapChannel 1 = 31 := by
    simp only [remapChannel, hround]
    rfl
  rw [hr]
  norm_num [specRemapChannel, offPixelBrightness]

/-- C6 (amended): the per-channel remap is the claimed affine formula with
the result rounded to the nearest integer (it differs from the exact
formula by at most 1/2); consequently input (0,0,0) produces the solid
floor colour (30,30,30) and (255,255,255) stays (255,255,255). -/
theorem remap_rounds_spec_formula :
    (∀ c : ℕ, |((remapChannel c : ℤ) : ℚ) - specRemapChannel c| ≤ 1 / 2)
    ∧ remapPixel (0, 0, 0) = (30, 30, 30)
    ∧ remapPixel (255, 255, 255) = (255, 255, 255) := by
  refine ⟨fun c => ?_, ?_, ?_⟩
  · have h := abs_sub_round ((255 - (offPixelBrightness : ℚ)) * (c : ℚ) / 255)
    rw [abs_sub_comm] at h
    simpa [remapChannel, specRemapChannel, add_sub_add_left_eq_sub] using h
  · norm_num [remapPixel, remapChannel, offPixelBrightness]
  · norm_num [remapPixel, remapChannel, offPixelBrightness]

/-- C10: for every channel value `c ≤ 255` the remapped value lies in
`[offPixelBrightness, 255] = [30, 255]`, and the remap is monotone in `c`. -/
theorem remapChannel_range_mono :
    (∀ c : ℕ, c ≤ 255 → offPixelBrightness ≤ remapChannel c ∧ remapChannel c ≤ 255)
    ∧ ∀ c c' : ℕ, c ≤ c' → remapChannel c ≤ remapChannel c' := by
  have key : ∀ c : ℕ, remapChannel c = 30 + ⌊225 * (c : ℚ) / 255 + 1 / 2⌋ := by
    intro c
    have harg : (255 - (offPixelBrightness : ℚ)) * (c : ℚ) / 255 + 1 / 2
        = 225 * (c : ℚ) / 255 + 1 / 2 := by
      norm_num [offPixelBrightness]
    simp only [remapChannel, round_eq, harg]
    rfl
  constructor
  · intro c hc
    have hc' : (c : ℚ) ≤ 255 := by exact_mod_cast hc
    have h0 : (0 : ℤ) ≤ ⌊225 * (c : ℚ) / 255 + 1 / 2⌋ := by
      apply Int.le_floor.mpr
      push_cast
      positivity
    have h1 : ⌊225 * (c : ℚ) / 255 + 1 / 2⌋ < 226 := by
      apply Int.floor_lt.mpr
      push_cast
      have : 225 * (c : ℚ) / 255 ≤ 225 := by
        rw [div_le_iff₀ (by norm_num : (0 : ℚ) < 255)]
        linarith
      linarith
    have ho : offPixelBrightness = 30 := rfl
    rw [key c, ho]
    omega
  · intro c c' hcc
    have hcast : (c : ℚ) ≤ (c' : ℚ) := by exact_mod_cast hcc
    have hmono : 225 * (c : ℚ) / 255 + 1 / 2 ≤ 225 * (c' : ℚ) / 255 + 1 / 2 := by
      linarith
    have hfl := Int.floor_le_floor hmono
    rw [key c, key c']
    omega

/-- C10 witness: the range and monotonicity facts evaluated at concrete
channel values. -/
theorem remapChannel_range_mono_witness :
    (offPixelBrightness ≤ remapChannel 255 ∧ remapChannel 255 ≤ 255)
    ∧ remapChannel 0 ≤ remapChannel 200 :=
  ⟨remapChannel_range_mono.1 255 (by decide), remapChannel_range_mono.2 0 200 (by decide)⟩

theorem bboxGo_const (p0 : Point) (rest : List Point) (h : ∀ p ∈ rest, p = p0) :
    bboxGo (p0.1, p0.1, p0.2, p0.2) rest = (p0.1, p0.1, p0.2, p0.2) := by
  induction rest with
  | nil => rfl
  | cons v vs ih =>
    have hv : v = p0 := h v (by simp)
    subst hv
    have hvs : ∀ p ∈ vs, p = v := fun p hp => h p (by simp [hp])
    simpa [bboxGo, lt_irrefl] using ih hvs

theorem bboxGo_le (l : List Point) (acc : ℚ × ℚ × ℚ × ℚ)
    (h1 : acc.1 ≤ acc.2.1) (h2 : acc.2.2.1 ≤ acc.2.2.2) :
    (bboxGo acc l).1 ≤ (bboxGo acc l).2.1 ∧ (bboxGo acc l).2.2.1 ≤ (bboxGo acc l).2.2.2 := by
  induction l generalizing acc with
  | nil => exact ⟨h1, h2⟩
  | cons v vs ih =>
    obtain ⟨a, b, c, d⟩ := acc
    simp only at h1 h2
    simp only [bboxGo]
    apply ih
    · simp only
      split_ifs <;> linarith
    · simp only
      split_ifs <;> linarith

/-- C3: for a non-empty layout whose points all coincide, `resizeCanvas`
reaches the `else` branch with `yDiff = 0` and computes
`maxHeight / yDiff` with no guard: the scale is a division by zero (not a
finite fallback such as 1). -/
theorem resizeCanvas_coincident (w h : ℤ) (p0 : Point) (rest : List Point)
    (hconst : ∀ p ∈ rest, p = p0) :
    resizeCanvas w h true (some (p0 :: rest)) = .divByZero := by
  have hb := bboxGo_const p0 rest hconst
  simp [resizeCanvas, bbox, hb, jsDiv]

/-- C3 witness: a two-point all-coincident layout hits the unguarded
division by zero. -/
theorem resizeCanvas_coincident_witness :
    resizeCanvas 20 20 true (some [(1, 2), (1, 2)]) = .divByZero :=
  resizeCanvas_coincident 20 20 (1, 2) [(1, 2)] (by simp)

/-- C5: for a non-empty layout with non-degenerate span, if
`xDiff > yDiff` then `scaling = (maxSize - w) / xDiff`,
`canvasWidth = maxSize`, `canvasHeight = round(yDiff * scaling) + h`;
otherwise (ties included) `scaling = (maxSize - h) / yDiff`,
`canvasHeight = maxSize`, `canvasWidth = round(xDiff * scaling) + w`;
offsets are `-xMin`, `-yMin`. -/
theorem resizeCanvas_spec (w h : ℤ) (p0 : Point) (rest : List Point)
    (hdeg : ¬((bbox p0 rest).2.1 - (bbox p0 rest).1 = 0 ∧
              (bbox p0 rest).2.2.2 - (bbox p0 rest).2.2.1 = 0)) :
    ((bbox p0 rest).2.1 - (bbox p0 rest).1 > (bbox p0 rest).2.2.2 - (bbox p0 rest).2.2.1 →
      resizeCanvas w h true (some (p0 :: rest)) = .viewport
        ⟨((maxSize - w : ℤ) : ℚ) / ((bbox p0 rest).2.1 - (bbox p0 rest).1),
         maxSize,
         round (((bbox p0 rest).2.2.2 - (bbox p0 rest).2.2.1) *
           (((maxSize - w : ℤ) : ℚ) / ((bbox p0 rest).2.1 - (bbox p0 rest).1))) + h,
         -(bbox p0 rest).1, -(bbox p0 rest).2.2.1⟩)
    ∧ (¬((bbox p0 rest).2.1 - (bbox p0 rest).1 > (bbox p0 rest).2.2.2 - (bbox p0 rest).2.2.1) →
      resizeCanvas w h true (some (p0 :: rest)) = .viewport
        ⟨((maxSize - h : ℤ) : ℚ) / ((bbox p0 rest).2.2.2 - (bbox p0 rest).2.2.1),
         round (((bbox p0 rest).2.1 - (bbox p0 rest).1) *
           (((maxSize - h : ℤ) : ℚ) / ((bbox p0 rest).2.2.2 - (bbox p0 rest).2.2.1))) + w,
         maxSize,
         -(bbox p0 rest).1, -(bbox p0 rest).2.2.1⟩) := by
  have hbounds := bboxGo_le rest (p0.1, p0.1, p0.2, p0.2) le_rfl le_rfl
  have hred : resizeCanvas w h true (some (p0 :: rest)) =
      (if (bbox p0 rest).2.1 - (bbox p0 rest).1 >
          (bbox p0 rest).2.2.2 - (bbox p0 rest).2.2.1 then
        match jsDiv ((maxSize - w : ℤ) : ℚ) ((bbox p0 rest).2.1 - (bbox p0 rest).1) with
        | none => ResizeResult.divByZero
        | some s => .viewport ⟨s, maxSize,
            round (((bbox p0 rest).2.2.2 - (bbox p0 rest).2.2.1) * s) + h,
            -(bbox p0 rest).1, -(bbox p0 rest).2.2.1⟩
      else
        match jsDiv ((maxSize - h : ℤ) : ℚ)
            ((bbox p0 rest).2.2.2 - (bbox p0 rest).2.2.1) with
        | none => ResizeResult.divByZero
        | some s => .viewport ⟨s,
            round (((bbox p0 rest).2.1 - (bbox p0 rest).1) * s) + w, maxSize,
            -(bbox p0 rest).1, -(bbox p0 rest).2.2.1⟩) := rfl
  constructor
  · intro hgt
    have hxne : (bbox p0 rest).2.1 - (bbox p0 rest).1 ≠ 0 := by
      have h2 : (0 : ℚ) ≤ (bbox p0 rest).2.2.2 - (bbox p0 rest).2.2.1 := by
        have := hbounds.2
        simp only [bbox] at *
        linarith
      exact ne_of_gt (lt_of_le_of_lt h2 hgt)
    have hjs : jsDiv ((maxSize - w : ℤ) : ℚ) ((bbox p0 rest).2.1 - (bbox p0 rest).1)
        = some (((maxSize - w : ℤ) : ℚ) / ((bbox p0 rest).2.1 - (bbox p0 rest).1)) := by
      simp [jsDiv, hxne]
    rw [hred, if_pos hgt, hjs]
  · intro hng
    have hyne : (bbox p0 rest).2.2.2 - (bbox p0 rest).2.2.1 ≠ 0 := by
      intro h0
      apply hdeg
      refine ⟨?_, h0⟩
      have hx0 : (0 : ℚ) ≤ (bbox p0 rest).2.1 - (bbox p0 rest).1 := by
        have := hbounds.1
        simp only [bbox] at *
        linarith
      have hxy : (bbox p0 rest).2.1 - (bbox p0 rest).1 ≤
          (bbox p0 rest).2.2.2 - (bbox p0 rest).2.2.1 := not_lt.mp hng
      rw [h0] at hxy
      linarith
    have hjs : jsDiv ((maxSize - h : ℤ) : ℚ) ((bbox p0 rest).2.2.2 - (bbox p0 rest).2.2.1)
        = some (((maxSize - h : ℤ) : ℚ) / ((bbox p0 rest).2.2.2 - (bbox p0 rest).2.2.1)) := by
      simp [jsDiv, hyne]
    rw [hred, if_neg hng, hjs]

/-- C5 witness: the end-to-end scenario — layout `[(0,0),(10,0),(0,10)]`,
20×20 sprite, bound 600: the tie `spanX = spanY = 10` falls into the
height-bound branch, `scale = (600-20)/10 = 58`, `canvasHeight = 600`,
`canvasWidth = round(10*58) + 20 = 600`. -/
theorem resizeCanvas_spec_witness :
    resizeCanvas 20 20 true (some [(0, 0), (10, 0), (0, 10)]) =
      .viewport ⟨58, 600, 600, 0, 0⟩ := by
  have hb : bbox ((0 : ℚ), (0 : ℚ)) [(10, 0), (0, 10)] = (0, 10, 0, 10) := by
    norm_num [bbox, bboxGo]
  have h := (resizeCanvas_spec 20 20 ((0 : ℚ), (0 : ℚ)) [(10, 0), (0, 10)]
      (by rw [hb]; norm_num)).2 (by rw [hb]; norm_num)
  rw [hb] at h
  rw [h]
  norm_num [maxSize, round_eq]
